import Mathlib

/-!
Verification of the MOFMaster workflow control core.

This file gives a shallow embedding of the workflow control code
(`app/graph.py`, `app/agents/runner.py`, `app/agents/supervisor.py`)
and settles the specification claims about it.

Modelling conventions:
* Python values flowing through `tool_outputs` are modelled by the
  inductive type `Value` (None, bool, int, str, list, dict); Python
  truthiness is `truthy`.
* Python dicts are association lists with unique keys; `dictSet` models
  `d[k] = v` (replace-or-append, preserving insertion order) and
  `lookupKey` models `d.get(k)`.
* `sorted(d.keys())` is modelled by sorting the association list by key
  in lexicographic string order (`sortByKey`).
* External effects (the MCP transport, the language model, the
  filesystem check in `_extract_existing_structure_path`, `json.loads`)
  are oracle parameters: the functions that use them take the oracle's
  answer as an argument, so every embedded function is a total, pure
  function of the state plus those answers.
-/

/-- A Python value as it appears in `tool_outputs` payloads. -/
inductive Value where
  | vnone : Value
  | vbool : Bool → Value
  | vint : Int → Value
  | vstr : String → Value
  | vlist : List Value → Value
  | vdict : List (String × Value) → Value

/-- Python truthiness of a `Value` (`bool(v)`). -/
def truthy : Value → Bool
  | Value.vnone => false
  | Value.vbool b => b
  | Value.vint n => decide (n ≠ 0)
  | Value.vstr s => !(s.isEmpty)
  | Value.vlist xs => !(xs.isEmpty)
  | Value.vdict xs => !(xs.isEmpty)

/-- Truthiness of `d.get(k)`-style optional values: Python `None` and
absent keys are falsy. -/
def truthyOpt : Option Value → Bool
  | none => false
  | some v => truthy v

/-- `d.get(k)` on an association-list dict (first matching key). -/
def lookupKey (d : List (String × Value)) (k : String) : Option Value :=
  match d with
  | [] => none
  | (k', v) :: rest => if k' = k then some v else lookupKey rest k

/-- `d[k] = v` on an association-list dict: replace the value if the key
is present, otherwise append (Python dicts preserve insertion order). -/
def dictSet (d : List (String × Value)) (k : String) (v : Value) :
    List (String × Value) :=
  match d with
  | [] => [(k, v)]
  | (k', v') :: rest =>
    if k' = k then (k, v) :: rest else (k', v') :: dictSet rest k v

/-- Lexicographic code-point order on character lists, as Python
compares strings. -/
def listLt : List Char → List Char → Bool
  | [], [] => false
  | [], _ :: _ => true
  | _ :: _, [] => false
  | a :: as, b :: bs =>
    a.toNat < b.toNat || (a.toNat = b.toNat && listLt as bs)

/-- Python `a < b` on strings: lexicographic by code point. -/
def strLtB (a b : String) : Bool := listLt a.data b.data

/-- Insert one entry into a key-sorted association list (ascending). -/
def insertAsc (p : String × Value) :
    List (String × Value) → List (String × Value)
  | [] => [p]
  | q :: rest =>
    if strLtB p.1 q.1 then p :: q :: rest else q :: insertAsc p rest

/-- Sort an association list by key in ascending lexicographic order;
models iterating a dict via `sorted(d.keys())`. -/
def sortByKey : List (String × Value) → List (String × Value)
  | [] => []
  | p :: rest => insertAsc p (sortByKey rest)

/-- The workflow state (`AgentState` TypedDict in `app/state.py`).
`rejection_count` models the dynamically-added `_rejection_count` key of
`app/graph.py`; fields carry the `state.get(...)` defaults as initial
values (`0`, `[]`, `{}`, `False`, `"N/A"`). The LangChain `messages`
channel is omitted: none of the embedded control code reads it. -/
structure AgentState where
  original_query : String := ""
  plan : List String := []
  current_step : Nat := 0
  tool_outputs : List (String × Value) := []
  review_feedback : String := "N/A"
  is_plan_approved : Bool := false
  rejection_count : Nat := 0

/-- `_find_latest_atoms_dict`'s scan over outputs, most recent first
(`sorted(keys, reverse=True)`): for each dict-shaped output, prefer a
truthy `optimized_atoms_dict` (when requested), else a truthy
`atoms_dict`, else keep scanning. -/
def scanAtoms (prefer_optimized : Bool) :
    List (String × Value) → Option Value
  | [] => none
  | (_, v) :: rest =>
    match v with
    | Value.vdict d =>
      if prefer_optimized && truthyOpt (lookupKey d "optimized_atoms_dict") then
        lookupKey d "optimized_atoms_dict"
      else if truthyOpt (lookupKey d "atoms_dict") then
        lookupKey d "atoms_dict"
      else scanAtoms prefer_optimized rest
    | _ => scanAtoms prefer_optimized rest

/-- `_find_latest_atoms_dict` from `app/agents/runner.py`. -/
def find_latest_atoms_dict (tool_outputs : List (String × Value))
    (prefer_optimized : Bool) : Option Value :=
  scanAtoms prefer_optimized (sortByKey tool_outputs).reverse

/-- One iteration of `_find_cif_filepath`'s loop body: update the
`(optimized_path, original_path)` accumulator from one output. The
list-shaped branch inspects the first element only and applies no error
filter; the dict-shaped branch filters the raw `cif_filepath` by a falsy
`error` field but applies no filter to `optimized_cif_filepath`. -/
def cifStep (acc : Option Value × Option Value) (v : Value) :
    Option Value × Option Value :=
  let optimized := acc.1
  let original := acc.2
  match v with
  | Value.vlist items =>
    match items.head? with
    | some (Value.vdict first) =>
      let original' :=
        match lookupKey first "cif_filepath" with
        | some x => some x
        | none => original
      let optimized' :=
        match lookupKey first "optimized_cif_filepath" with
        | some x => some x
        | none => optimized
      (optimized', original')
    | _ => (optimized, original)
  | Value.vdict d =>
    let optimized' :=
      match lookupKey d "optimized_cif_filepath" with
      | some x => some x
      | none => optimized
    let original' :=
      if (lookupKey d "cif_filepath").isSome
          && !(truthyOpt (lookupKey d "error")) then
        lookupKey d "cif_filepath"
      else original
    (optimized', original')
  | _ => (optimized, original)

/-- `_find_cif_filepath` from `app/agents/runner.py`: fold over outputs
in ascending key order, then `return optimized_path or original_path`
(with the `prefer_optimized` early return). -/
def find_cif_filepath (tool_outputs : List (String × Value))
    (prefer_optimized : Bool) : Option Value :=
  let acc := (sortByKey tool_outputs).foldl
    (fun acc p => cifStep acc p.2) (none, none)
  let optimized := acc.1
  let original := acc.2
  if prefer_optimized && truthyOpt optimized then optimized
  else if truthyOpt optimized then optimized else original

/-- The character U+007B (left curly bracket). -/
def lbrace : Char := Char.ofNat 123

/-- The character U+007D (right curly bracket). -/
def rbrace : Char := Char.ofNat 125

/-- The character U+0060 (grave accent), as used in fenced code blocks. -/
def btick : Char := Char.ofNat 96

/-- Python `\s` whitespace (space, tab, newline, carriage return,
vertical tab, form feed) on ASCII text. -/
def pyWs (c : Char) : Bool :=
  c = ' ' || c = '\t' || c = '\n' || c = '\r' || c = '\x0b' || c = '\x0c'

/-- Python `str.strip()`: drop leading and trailing whitespace. -/
def pyStrip (s : String) : String :=
  String.mk (((s.data.dropWhile pyWs).reverse.dropWhile pyWs).reverse)

/-- `startsList pre cs`: does `cs` start with `pre`?  (Python
`str.startswith` on the underlying characters.) -/
def startsList : List Char → List Char → Bool
  | [], _ => true
  | _ :: _, [] => false
  | p :: ps, c :: cs => p = c && startsList ps cs

/-- The characters of the opening fence marker of a ```json code block. -/
def jsonFenceChars : List Char := [btick, btick, btick, 'j', 's', 'o', 'n']

/-- `cleaned_data.startswith("```json")` from `_process_mcp_result`. -/
def fencePresent (s : String) : Bool := startsList jsonFenceChars s.data

/-- After the closing bracket of the candidate capture: does the rest,
after maximal whitespace, start with a closing fence marker?  This is the
regex tail of `_process_mcp_result`'s fence pattern. -/
def fenceTail (cs : List Char) : Bool :=
  match cs.dropWhile pyWs with
  | c1 :: c2 :: c3 :: _ => c1 = btick && c2 = btick && c3 = btick
  | _ => false

/-- Lazy scan for the body of the fence pattern's capture group: the
shortest body such that a right brace followed by whitespace and a
closing fence marker ends the match (the non-greedy quantifier of the
fence regex in `_process_mcp_result`). -/
def lazyBody (acc : List Char) : List Char → Option (List Char)
  | [] => none
  | c :: rest =>
    if c = rbrace && fenceTail rest then some acc.reverse
    else lazyBody (c :: acc) rest

/-- Try the fence regex of `_process_mcp_result` anchored at the head of
`cs`: the literal opening marker, maximal whitespace, then a braced
capture located by `lazyBody`.  Returns the capture group. -/
def matchFenceAt (cs : List Char) : Option String :=
  match cs with
  | c1 :: c2 :: c3 :: c4 :: c5 :: c6 :: c7 :: rest =>
    if c1 = btick && c2 = btick && c3 = btick
        && c4 = 'j' && c5 = 's' && c6 = 'o' && c7 = 'n' then
      match rest.dropWhile pyWs with
      | c :: tail =>
        if c = lbrace then
          (lazyBody [] tail).map
            (fun body => String.mk (lbrace :: body ++ [rbrace]))
        else none
      | [] => none
    else none
  | _ => none

/-- `re.search` of `_process_mcp_result`'s fence pattern: leftmost match
wins; returns the capture group `\x7b...\x7d`. -/
def searchFence : List Char → Option String
  | [] => none
  | c :: rest =>
    match matchFenceAt (c :: rest) with
    | some g => some g
    | none => searchFence rest

/-- The text-normalization of `_process_mcp_result`'s success path:
strip the payload; if it starts with a ```json fence marker and the
fence regex matches, replace it by the capture group; then try
`json.loads` (the `parse` oracle); on failure return the raw payload
text unchanged. -/
def processText (parse : String → Option Value) (output_data : String) :
    Value :=
  let cleaned := pyStrip output_data
  let cleaned2 :=
    if fencePresent cleaned then
      match searchFence cleaned.data with
      | some g => g
      | none => cleaned
    else cleaned
  match parse cleaned2 with
  | some v => v
  | none => Value.vstr output_data

/-- An MCP content item; MCP text content carries a `text` field. -/
structure ContentItem where
  text : String

/-- An MCP tool-call result: the Bohr SDK error flag (`isError`), the
standard MCP flag (`is_error`), and the content list. -/
structure MCPResult where
  is_error : Bool
  isError : Bool
  content : List ContentItem

/-- `_process_mcp_result` from `app/agents/runner.py`.  `parse` is the
`json.loads` oracle. -/
def process_mcp_result (parse : String → Option Value) (result : MCPResult)
    (tool_name : String) : Value :=
  if result.is_error || result.isError then
    Value.vdict
      [("error", Value.vstr
          (match result.content.head? with
           | some c => c.text
           | none => "Unknown error")),
       ("tool_name", Value.vstr tool_name)]
  else
    match result.content.head? with
    | none => Value.vdict []
    | some c => processText parse c.text

/-- Python `a or b` on optional values: the first operand if truthy,
otherwise the second as-is. -/
def pyOrOpt (a b : Option Value) : Option Value :=
  if truthyOpt a then a else b

/-- `_prepare_tool_args` from `app/agents/runner.py`.  `userPath` is the
oracle for `_extract_existing_structure_path` (a regex-plus-filesystem
check for a structure path typed in the query). -/
def prepare_tool_args (userPath : String → Option String)
    (tool_name : String) (tool_outputs : List (String × Value))
    (st : AgentState) : List (String × Value) :=
  let original_query := st.original_query
  if tool_name = "search_mofs" then
    [("query", Value.vstr original_query),
     ("query_string", Value.vstr original_query)]
  else if tool_name = "parse_structure" then
    let cif_path := find_cif_filepath tool_outputs true
    let user_path := (userPath original_query).map Value.vstr
    let combined := pyOrOpt user_path cif_path
    let data :=
      if truthyOpt combined then combined.getD Value.vnone
      else Value.vstr original_query
    [("data", data)]
  else if tool_name = "optimize_geometry" then
    match find_latest_atoms_dict tool_outputs false with
    | some a => [("atoms_dict", a)]
    | none => []
  else if tool_name = "static_calculation" then
    match find_latest_atoms_dict tool_outputs true with
    | some a => [("atoms_dict", a)]
    | none => []
  else []

/-- The executor configuration dict injected into every tool call. -/
def executorConfig : Value := Value.vdict [("type", Value.vstr "local")]

/-- The storage configuration dict injected into every tool call. -/
def storageConfig : Value := Value.vdict [("type", Value.vstr "local")]

/-- The key under which one step's result is recorded:
`step_(index)_(toolName)`. -/
def stepKey (i : Nat) (tool : String) : String :=
  "step_" ++ toString i ++ "_" ++ tool

/-- The keyword arguments `runner_node` passes to
`client.call_tool`: the prepared tool arguments plus the executor and
storage configurations. -/
def runnerKwargs (userPath : String → Option String) (st : AgentState) :
    List (String × Value) :=
  let tool := st.plan.getD st.current_step ""
  let kwargs := prepare_tool_args userPath tool st.tool_outputs st
  dictSet (dictSet kwargs "executor" executorConfig) "storage" storageConfig

/-- The transport call `runner_node` attempts: `none` when the plan is
complete (the early return), otherwise the tool name and keyword
arguments handed to `MCPClient.call_tool`.  In the source the call is
attempted for every pending step — there is no registry or
missing-dependency guard in front of it. -/
def runner_transport_call (userPath : String → Option String)
    (st : AgentState) : Option (String × List (String × Value)) :=
  if st.current_step ≥ st.plan.length then none
  else some (st.plan.getD st.current_step "", runnerKwargs userPath st)

/-- The outcome of the `try` block around the MCP call in `runner_node`:
either the transport returned a result, or some exception was raised
(its formatted message and traceback snippet, which the source assembles
from the exception by string formatting). -/
inductive ExecOutcome where
  | ok : MCPResult → ExecOutcome
  | exn : String → String → ExecOutcome

/-- `runner_node` from `app/agents/runner.py`: if the plan is complete,
return the state unchanged; otherwise record exactly one result under
`step_(index)_(toolName)` — the processed MCP result on success, an
error dict on exception — and increment `current_step`. -/
def runner_node (userPath : String → Option String)
    (parse : String → Option Value) (st : AgentState) (oc : ExecOutcome) :
    AgentState :=
  if st.current_step ≥ st.plan.length then st
  else
    let tool := st.plan.getD st.current_step ""
    let _kwargs := runnerKwargs userPath st
    let recorded :=
      match oc with
      | ExecOutcome.ok result => process_mcp_result parse result tool
      | ExecOutcome.exn msg tb =>
        Value.vdict
          [("error", Value.vstr msg),
           ("tool_name", Value.vstr tool),
           ("traceback", Value.vstr tb)]
    { st with
      tool_outputs := dictSet st.tool_outputs
        (stepKey st.current_step tool) recorded,
      current_step := st.current_step + 1 }

/-- Routing targets of the conditional edges in `app/graph.py`
(`"end"` is modelled by `stop`). -/
inductive Route where
  | runner
  | analyzer
  | reporter
  | stop
deriving DecidableEq

/-- `should_continue_runner` from `app/graph.py`. -/
def should_continue_runner (st : AgentState) : Route :=
  if st.current_step < st.plan.length then Route.runner else Route.reporter

/-- `should_continue_after_supervisor` from `app/graph.py`.  The Python
function mutates the state dict it is given (incrementing
`_rejection_count` and, on forced approval, setting `is_plan_approved`
and `review_feedback`); the model returns the route together with the
mutated state. -/
def should_continue_after_supervisor (st : AgentState) :
    Route × AgentState :=
  if st.is_plan_approved then (Route.runner, st)
  else
    let rc := st.rejection_count + 1
    let st1 := { st with rejection_count := rc }
    if rc ≥ 3 then
      (Route.runner,
       { st1 with
         is_plan_approved := true,
         review_feedback := "Auto-approved after " ++ toString rc
           ++ " rejections. Previous feedback: " ++ st.review_feedback })
    else (Route.analyzer, st1)

/-- The Reviewer verdict (`SupervisorReview` in `app/schema.py`). -/
structure SupervisorReview where
  approved : Bool
  feedback : String

/-- The regex extraction of `supervisor_node`'s fallback path
(`re.search` of a greedy brace pattern with DOTALL): the prefix up to
the last right brace of the suffix starting at the first left brace. -/
def takeUptoLastR : List Char → Option (List Char)
  | [] => none
  | c :: rest =>
    match takeUptoLastR rest with
    | some tail => some (c :: tail)
    | none => if c = rbrace then some [c] else none

/-- Locate the brace-delimited candidate JSON in the Reviewer's text
response, as `supervisor_node`'s fallback regex does. -/
def braceExtract (content : String) : Option String :=
  let after := content.data.dropWhile (fun c => c ≠ lbrace)
  match after with
  | [] => none
  | _ :: _ => (takeUptoLastR after).map String.mk

/-- `supervisor_node`'s fallback parsing of a raw text response:
extract a brace-delimited candidate, run it through `json.loads` plus
`SupervisorReview(**data)` (the `extract` oracle), and default to an
approving verdict with an explanatory feedback string when either layer
fails.  Total by construction: no exception escapes. -/
def parse_review (extract : String → Option SupervisorReview)
    (content : String) : SupervisorReview :=
  match braceExtract content with
  | some jtext =>
    match extract jtext with
    | some r => r
    | none =>
      { approved := true,
        feedback := "Could not parse review, defaulting to approved." }
  | none =>
    { approved := true,
      feedback := "No structured review found, defaulting to approved." }

/-- `supervisor_node` from `app/agents/supervisor.py`.  `structured` is
the structured-output oracle (`none` models the exception that triggers
the text fallback); `extract` and `content` feed the fallback path. -/
def supervisor_node (structured : Option SupervisorReview)
    (extract : String → Option SupervisorReview) (content : String)
    (st : AgentState) : AgentState :=
  if st.plan.isEmpty then
    { st with
      is_plan_approved := false,
      review_feedback := "No plan provided for review." }
  else
    let review :=
      match structured with
      | some r => r
      | none => parse_review extract content
    { st with
      is_plan_approved := review.approved,
      review_feedback := review.feedback }

/-- One review cycle of the plan-review loop: the Supervisor node (its
verdict supplied by the structured-output oracle) followed by the
routing function.  The fallback oracle and text are irrelevant when a
structured verdict is available. -/
def reviewCycle (v : SupervisorReview) (st : AgentState) :
    Route × AgentState :=
  should_continue_after_supervisor
    (supervisor_node (some v) (fun _ => none) "" st)

/-- Outcome of running the review loop: the route on which the loop
left (none if fuel ran out), the final state, the number of Planner
re-invocations (transitions back to the analyzer), and the number of
review cycles executed. -/
structure LoopResult where
  route : Option Route
  final : AgentState
  replans : Nat
  cycles : Nat

/-- Run the supervisor-review loop of `app/graph.py`: at cycle `k` the
Reviewer returns `verdicts k`; an `analyzer` route re-invokes the
Planner and loops, any other route leaves the loop.  `fuel` bounds the
recursion (the loop itself is bounded by the rejection safeguard). -/
def reviewLoop (verdicts : Nat → SupervisorReview) :
    Nat → Nat → Nat → AgentState → LoopResult
  | 0, k, replans, st => ⟨none, st, replans, k⟩
  | fuel + 1, k, replans, st =>
    let step := reviewCycle (verdicts k) st
    match step.1 with
    | Route.analyzer => reviewLoop verdicts fuel (k + 1) (replans + 1) step.2
    | r => ⟨some r, step.2, replans, k + 1⟩

/-- Iterated Runner invocation: `runnerIter up pj ocs k st` is the state
after `k` Runner invocations, the `i`-th invocation's transport outcome
being `ocs i`. -/
def runnerIter (userPath : String → Option String)
    (parse : String → Option Value) (ocs : Nat → ExecOutcome) :
    Nat → AgentState → AgentState
  | 0, st => st
  | k + 1, st =>
    runner_node userPath parse (runnerIter userPath parse ocs k st) (ocs k)

/-- Modelled from the spec: the layered text-normalization strategy of
§4.2 — (1) if a fenced code-block wrapper is present, strip the wrapper
and parse the inner text as JSON; (2) parse the (stripped) raw text as
JSON; (3) if both fail, pass the raw text through unparsed.  A later
strategy is consulted only when every earlier one fails.  This is the
comparison definition for the refinement claim about `processText`. -/
def specLayeredNormalize (parse : String → Option Value)
    (output_data : String) : Value :=
  let t := pyStrip output_data
  let viaFence : Option Value :=
    if fencePresent t then (searchFence t.data).bind parse else none
  match viaFence with
  | some v => v
  | none =>
    match parse t with
    | some v => v
    | none => Value.vstr output_data

/-- Oracle standing for `_extract_existing_structure_path` when the
query names no existing structure file. -/
def noUserPath : String → Option String := fun _ => none

/-- `json.loads` oracle that fails on every input (used to instantiate
witnesses where the parse result is irrelevant). -/
def noJson : String → Option Value := fun _ => none

theorem runner_node_plan_eq (up : String → Option String)
    (pj : String → Option Value) (st : AgentState) (oc : ExecOutcome) :
    (runner_node up pj st oc).plan = st.plan := by
  unfold runner_node
  split <;> rfl

theorem runner_node_step_of_pending (up : String → Option String)
    (pj : String → Option Value) (st : AgentState) (oc : ExecOutcome)
    (h : st.current_step < st.plan.length) :
    (runner_node up pj st oc).current_step = st.current_step + 1 := by
  unfold runner_node
  rw [if_neg (by omega)]

theorem runnerIter_plan_eq (up : String → Option String)
    (pj : String → Option Value) (ocs : Nat → ExecOutcome) (k : Nat)
    (st : AgentState) : (runnerIter up pj ocs k st).plan = st.plan := by
  induction k with
  | zero => rfl
  | succ k ih => rw [runnerIter, runner_node_plan_eq, ih]

theorem runnerIter_current_step (up : String → Option String)
    (pj : String → Option Value) (ocs : Nat → ExecOutcome)
    (st : AgentState) (h0 : st.current_step = 0) :
    ∀ k, k ≤ st.plan.length →
      (runnerIter up pj ocs k st).current_step = k := by
  intro k
  induction k with
  | zero => intro _; simpa [runnerIter] using h0
  | succ k ih =>
    intro hk
    have hc := ih (Nat.le_of_succ_le hk)
    have hlt : (runnerIter up pj ocs k st).current_step
        < (runnerIter up pj ocs k st).plan.length := by
      rw [hc, runnerIter_plan_eq]
      omega
    rw [runnerIter, runner_node_step_of_pending _ _ _ _ hlt, hc]

/-- C1: while `current_step < len(plan)`, a Runner invocation increases
`current_step` by exactly 1 — for any transport outcome, success or
failure — and records exactly one result under
`step_(index)_(toolName)`; and starting from `current_step = 0`,
iterated invocation puts `current_step` at `k` after `k ≤ len(plan)`
invocations, so the plan completes in exactly `len(plan)` invocations
regardless of individual step outcomes. -/
theorem runner_advances_and_terminates (up : String → Option String)
    (pj : String → Option Value) (st : AgentState) (oc : ExecOutcome)
    (ocs : Nat → ExecOutcome) (st0 : AgentState)
    (h : st.current_step < st.plan.length) (h0 : st0.current_step = 0) :
    (runner_node up pj st oc).current_step = st.current_step + 1 ∧
    (∃ v, (runner_node up pj st oc).tool_outputs
        = dictSet st.tool_outputs
            (stepKey st.current_step (st.plan.getD st.current_step "")) v) ∧
    (runnerIter up pj ocs st0.plan.length st0).current_step
        = st0.plan.length ∧
    (∀ k, k ≤ st0.plan.length →
      (runnerIter up pj ocs k st0).current_step = k) := by
  refine ⟨runner_node_step_of_pending up pj st oc h, ⟨?_, ?_⟩, ?_, ?_⟩
  · exact
      match oc with
      | ExecOutcome.ok result =>
        process_mcp_result pj result (st.plan.getD st.current_step "")
      | ExecOutcome.exn msg tb =>
        Value.vdict
          [("error", Value.vstr msg),
           ("tool_name", Value.vstr (st.plan.getD st.current_step "")),
           ("traceback", Value.vstr tb)]
  · unfold runner_node
    rw [if_neg (by omega)]
  · exact runnerIter_current_step up pj ocs st0 h0 st0.plan.length
      (Nat.le_refl _)
  · exact runnerIter_current_step up pj ocs st0 h0

/-- Concrete two-step state used to witness the Runner claims. -/
def stTwoSteps : AgentState :=
  { original_query := "copper",
    plan := ["search_mofs", "static_calculation"],
    current_step := 0, tool_outputs := [], review_feedback := "",
    is_plan_approved := true, rejection_count := 0 }

/-- A transport outcome stream that always raises. -/
def alwaysExn : Nat → ExecOutcome := fun _ => ExecOutcome.exn "boom" "tb"

/-- Witness for the Runner-advance claim at a concrete two-step plan
with failing transport. -/
theorem runner_advances_and_terminates_witness :
    (runner_node noUserPath noJson stTwoSteps (alwaysExn 0)).current_step
        = stTwoSteps.current_step + 1 ∧
    (∃ v, (runner_node noUserPath noJson stTwoSteps
            (alwaysExn 0)).tool_outputs
        = dictSet stTwoSteps.tool_outputs
            (stepKey stTwoSteps.current_step
              (stTwoSteps.plan.getD stTwoSteps.current_step "")) v) ∧
    (runnerIter noUserPath noJson alwaysExn stTwoSteps.plan.length
        stTwoSteps).current_step = stTwoSteps.plan.length ∧
    (∀ k, k ≤ stTwoSteps.plan.length →
      (runnerIter noUserPath noJson alwaysExn k stTwoSteps).current_step
        = k) :=
  runner_advances_and_terminates noUserPath noJson stTwoSteps
    (alwaysExn 0) alwaysExn stTwoSteps (by decide) rfl

/-- C10: invoking the Runner on a completed plan
(`current_step >= len(plan)`) returns the state unchanged: no tool
invoked, nothing recorded, cursor untouched. -/
theorem runner_noop_when_complete (up : String → Option String)
    (pj : String → Option Value) (st : AgentState) (oc : ExecOutcome)
    (h : st.plan.length ≤ st.current_step) :
    runner_node up pj st oc = st ∧ runner_transport_call up st = none := by
  constructor
  · unfold runner_node
    rw [if_pos h]
  · unfold runner_transport_call
    rw [if_pos h]

/-- Concrete completed state used to witness the frame claim. -/
def stCompleted : AgentState :=
  { original_query := "copper", plan := ["search_mofs"],
    current_step := 1,
    tool_outputs := [("step_0_search_mofs", Value.vdict [])],
    review_feedback := "", is_plan_approved := true,
    rejection_count := 0 }

/-- Witness for the completed-plan frame claim at a concrete state. -/
theorem runner_noop_when_complete_witness :
    runner_node noUserPath noJson stCompleted (alwaysExn 0) = stCompleted ∧
    runner_transport_call noUserPath stCompleted = none :=
  runner_noop_when_complete noUserPath noJson stCompleted (alwaysExn 0)
    (by decide)

/-- Results holding a raw artifact first, then a processed one
(the spec's `[(raw: "A"), (processed: "B")]` example). -/
def resultsRawThenProcessed : List (String × Value) :=
  [("step_0_parse_structure", Value.vdict [("atoms_dict", Value.vstr "A")]),
   ("step_1_optimize_geometry",
     Value.vdict [("optimized_atoms_dict", Value.vstr "B")])]

/-- Results holding a processed artifact first, then a raw one
(the spec's `[(processed: "B"), (raw: "A")]` example). -/
def resultsProcessedThenRaw : List (String × Value) :=
  [("step_0_optimize_geometry",
     Value.vdict [("optimized_atoms_dict", Value.vstr "B")]),
   ("step_1_parse_structure", Value.vdict [("atoms_dict", Value.vstr "A")])]

/-- C3 counterexample: with the processed artifact older than the raw
one, `_find_latest_atoms_dict` with `prefer_optimized` resolves to the
raw `"A"`, not to the processed `"B"` the claim requires — the scan is
single-pass most-recent-first, not two-pass. -/
theorem atoms_resolution_not_two_pass :
    find_latest_atoms_dict resultsProcessedThenRaw true
      = some (Value.vstr "A") ∧
    find_latest_atoms_dict resultsProcessedThenRaw true
      ≠ some (Value.vstr "B") := by
  refine ⟨by rfl, fun h => ?_⟩
  rw [show find_latest_atoms_dict resultsProcessedThenRaw true
      = some (Value.vstr "A") by rfl] at h
  injection h with h1
  injection h1 with h2
  exact absurd h2 (by decide)

/-- C3 amended: `atoms_dict` resolution is a single pass over results
from most recent to oldest, preferring the processed field within each
result: `[(raw: "A"), (processed: "B")]` resolves to `"B"`, but
`[(processed: "B"), (raw: "A")]` resolves to the more recent raw
`"A"`. -/
theorem atoms_resolution_single_pass :
    find_latest_atoms_dict resultsRawThenProcessed true
      = some (Value.vstr "B") ∧
    find_latest_atoms_dict resultsProcessedThenRaw true
      = some (Value.vstr "A") := by
  exact ⟨by rfl, by rfl⟩

/-- Results where the most recent `atoms_dict` sits in a result flagged
with an `error` field. -/
def resultsErrorAtoms : List (String × Value) :=
  [("step_0_parse_structure", Value.vdict [("atoms_dict", Value.vstr "A")]),
   ("step_1_parse_structure",
     Value.vdict [("atoms_dict", Value.vstr "C"),
                  ("error", Value.vstr "x")])]

/-- Results matching the spec's CIF example: a clean `cif_filepath "A"`
followed by an error-flagged `cif_filepath "C"`. -/
def resultsErrorCif : List (String × Value) :=
  [("step_0_search_mofs", Value.vdict [("cif_filepath", Value.vstr "A")]),
   ("step_1_search_mofs",
     Value.vdict [("cif_filepath", Value.vstr "C"),
                  ("error", Value.vstr "x")])]

/-- C4 counterexample: `_find_latest_atoms_dict` applies no error
filter, so the error-flagged result's `atoms_dict` value `"C"` is
selected — refuting the claim that an error-flagged result is never an
artifact source for `atoms_dict` artifacts. -/
theorem error_result_selected_as_atoms_source :
    find_latest_atoms_dict resultsErrorAtoms false
      = some (Value.vstr "C") ∧
    find_latest_atoms_dict resultsErrorAtoms false
      ≠ some (Value.vstr "A") := by
  refine ⟨by rfl, fun h => ?_⟩
  rw [show find_latest_atoms_dict resultsErrorAtoms false
      = some (Value.vstr "C") by rfl] at h
  injection h with h1
  injection h1 with h2
  exact absurd h2 (by decide)

/-- C4 amended: only the raw `cif_filepath` field of dict-shaped
results is guarded by the error flag — the spec's CIF example does
yield `"A"` — while `atoms_dict` resolution (and the
`optimized_cif_filepath` field) perform no error filtering, so an
error-flagged result can be selected there. -/
theorem error_filter_only_on_raw_cif :
    find_cif_filepath resultsErrorCif true = some (Value.vstr "A") ∧
    find_cif_filepath resultsErrorCif false = some (Value.vstr "A") ∧
    find_latest_atoms_dict resultsErrorAtoms false
      = some (Value.vstr "C") := by
  exact ⟨by rfl, by rfl, by rfl⟩

/-- A successful MCP result whose sole content item is the plain text
`"done"`. -/
def okDone : MCPResult :=
  { is_error := false, isError := false, content := [{ text := "done" }] }

/-- A state whose next step needs an `atoms_dict` none of the prior
results provides. -/
def stMissingAtoms : AgentState :=
  { original_query := "optimize it", plan := ["optimize_geometry"],
    current_step := 0, tool_outputs := [], review_feedback := "",
    is_plan_approved := true, rejection_count := 0 }

/-- C5 counterexample: with no `atoms_dict` available anywhere, the
Runner still attempts the transport call for `optimize_geometry` — the
keyword arguments hold only the executor/storage configuration, no
`atoms_dict` — and on a successful call records an ordinary (non-error)
result; no `MissingDependency` error result is produced. -/
theorem missing_dependency_not_signalled :
    runner_transport_call noUserPath stMissingAtoms
      = some ("optimize_geometry",
          [("executor", executorConfig), ("storage", storageConfig)]) ∧
    (runner_node noUserPath noJson stMissingAtoms
        (ExecOutcome.ok okDone)).tool_outputs
      = [("step_0_optimize_geometry", Value.vstr "done")] := by
  exact ⟨by rfl, by rfl⟩

/-- C5 amended: when a step's tool is `optimize_geometry` and no
`atoms_dict` artifact resolves from the prior results, the Runner
executes the tool anyway with an argument payload holding only the
executor/storage configuration (the `atoms_dict` key is silently
omitted; no `MissingDependency` error result is recorded by the
Runner); the cursor still advances, so later steps are not aborted. -/
theorem missing_atoms_tool_still_called (up : String → Option String)
    (pj : String → Option Value) (st : AgentState) (oc : ExecOutcome)
    (hpend : st.current_step < st.plan.length)
    (htool : st.plan.getD st.current_step "" = "optimize_geometry")
    (hatoms : find_latest_atoms_dict st.tool_outputs false = none) :
    runner_transport_call up st
      = some ("optimize_geometry",
          [("executor", executorConfig), ("storage", storageConfig)]) ∧
    (runner_node up pj st oc).current_step = st.current_step + 1 := by
  constructor
  · unfold runner_transport_call runnerKwargs
    rw [if_neg (by omega), htool]
    simp only [prepare_tool_args, hatoms,
      if_neg (show ("optimize_geometry" : String) ≠ "search_mofs" by decide),
      if_neg (show ("optimize_geometry" : String) ≠ "parse_structure" by
        decide),
      if_pos (show ("optimize_geometry" : String) = "optimize_geometry" from
        rfl)]
    rfl
  · exact runner_node_step_of_pending up pj st oc hpend

/-- Witness for the missing-dependency claim at the concrete state with
an empty results dict. -/
theorem missing_atoms_tool_still_called_witness :
    runner_transport_call noUserPath stMissingAtoms
      = some ("optimize_geometry",
          [("executor", executorConfig), ("storage", storageConfig)]) ∧
    (runner_node noUserPath noJson stMissingAtoms
        (ExecOutcome.ok okDone)).current_step
      = stMissingAtoms.current_step + 1 :=
  missing_atoms_tool_still_called noUserPath noJson stMissingAtoms
    (ExecOutcome.ok okDone) (by decide) (by rfl) (by rfl)

/-- The tool names `_prepare_tool_args` recognizes (every other name
falls through to an empty argument dict). -/
def knownTools : List String :=
  ["search_mofs", "parse_structure", "optimize_geometry",
   "static_calculation"]

/-- A state whose next step names a tool outside `knownTools`. -/
def stUnknownTool : AgentState :=
  { original_query := "run molecular dynamics",
    plan := ["md_simulation"], current_step := 0, tool_outputs := [],
    review_feedback := "", is_plan_approved := true,
    rejection_count := 0 }

/-- C6 counterexample: for the unknown tool name `md_simulation` the
Runner still attempts the remote transport call (with only the
executor/storage configuration as arguments), and on a successful
response records an ordinary result rather than an immediate error —
there is no registry check in `runner_node`. -/
theorem unknown_tool_transport_attempted :
    runner_transport_call noUserPath stUnknownTool
      = some ("md_simulation",
          [("executor", executorConfig), ("storage", storageConfig)]) ∧
    runner_transport_call noUserPath stUnknownTool ≠ none ∧
    (runner_node noUserPath noJson stUnknownTool
        (ExecOutcome.ok okDone)).tool_outputs
      = [("step_0_md_simulation", Value.vstr "done")] := by
  refine ⟨by rfl, fun h => ?_, by rfl⟩
  rw [show runner_transport_call noUserPath stUnknownTool
      = some ("md_simulation",
          [("executor", executorConfig), ("storage", storageConfig)])
      by rfl] at h
  exact Option.noConfusion h

theorem prepare_tool_args_unknown (up : String → Option String)
    (t : String) (outs : List (String × Value)) (st : AgentState)
    (h : t ∉ knownTools) : prepare_tool_args up t outs st = [] := by
  simp only [knownTools, List.mem_cons, List.not_mem_nil, or_false,
    not_or] at h
  obtain ⟨h1, h2, h3, h4⟩ := h
  unfold prepare_tool_args
  rw [if_neg h1, if_neg h2, if_neg h3, if_neg h4]

/-- C6 amended: the Runner performs no registry check: for a pending
step whose tool name is outside the set `_prepare_tool_args`
recognizes, it prepares an empty argument payload (plus the
executor/storage configuration) and still attempts the remote transport
call; the step's outcome — whatever the transport returns or raises —
is recorded under the step key and the cursor advances. -/
theorem unknown_tool_still_calls_transport (up : String → Option String)
    (pj : String → Option Value) (st : AgentState) (oc : ExecOutcome)
    (hpend : st.current_step < st.plan.length)
    (hunk : st.plan.getD st.current_step "" ∉ knownTools) :
    runner_transport_call up st
      = some (st.plan.getD st.current_step "",
          [("executor", executorConfig), ("storage", storageConfig)]) ∧
    (runner_node up pj st oc).current_step = st.current_step + 1 ∧
    (∃ v, (runner_node up pj st oc).tool_outputs
        = dictSet st.tool_outputs
            (stepKey st.current_step (st.plan.getD st.current_step "")) v) := by
  refine ⟨?_, runner_node_step_of_pending up pj st oc hpend, ?_, ?_⟩
  · unfold runner_transport_call runnerKwargs
    rw [if_neg (by omega)]
    simp only [prepare_tool_args_unknown up (st.plan.getD st.current_step "")
      st.tool_outputs st hunk]
    rfl
  · exact
      match oc with
      | ExecOutcome.ok result =>
        process_mcp_result pj result (st.plan.getD st.current_step "")
      | ExecOutcome.exn msg tb =>
        Value.vdict
          [("error", Value.vstr msg),
           ("tool_name", Value.vstr (st.plan.getD st.current_step "")),
           ("traceback", Value.vstr tb)]
  · unfold runner_node
    rw [if_neg (by omega)]

/-- Witness for the unknown-tool claim at the concrete
`md_simulation` state. -/
theorem unknown_tool_still_calls_transport_witness :
    runner_transport_call noUserPath stUnknownTool
      = some (stUnknownTool.plan.getD stUnknownTool.current_step "",
          [("executor", executorConfig), ("storage", storageConfig)]) ∧
    (runner_node noUserPath noJson stUnknownTool
        (ExecOutcome.ok okDone)).current_step
      = stUnknownTool.current_step + 1 ∧
    (∃ v, (runner_node noUserPath noJson stUnknownTool
            (ExecOutcome.ok okDone)).tool_outputs
        = dictSet stUnknownTool.tool_outputs
            (stepKey stUnknownTool.current_step
              (stUnknownTool.plan.getD stUnknownTool.current_step "")) v) :=
  unknown_tool_still_calls_transport noUserPath noJson stUnknownTool
    (ExecOutcome.ok okDone) (by decide) (by decide)

/-- A state the Reviewer has just approved after two rejections. -/
def stApprovedAfterTwo : AgentState :=
  { original_query := "q", plan := ["search_mofs"], current_step := 0,
    tool_outputs := [], review_feedback := "looks good",
    is_plan_approved := true, rejection_count := 2 }

/-- C7 counterexample: on approval the router goes to the Runner but
leaves the rejection count at its accumulated value 2 — it is not reset
to 0 anywhere (neither in `should_continue_after_supervisor` nor in
`supervisor_node`). -/
theorem approval_leaves_rejection_count :
    (should_continue_after_supervisor stApprovedAfterTwo).1
      = Route.runner ∧
    (should_continue_after_supervisor stApprovedAfterTwo).2.rejection_count
      = 2 ∧
    (should_continue_after_supervisor stApprovedAfterTwo).2.rejection_count
      ≠ 0 := by
  exact ⟨rfl, rfl, by decide⟩

/-- C7 amended: on approval the router returns the state completely
unchanged — in particular the consecutive-rejection count keeps
whatever value it had accumulated and is never reset to 0. -/
theorem approval_keeps_state_unchanged (st : AgentState)
    (h : st.is_plan_approved = true) :
    should_continue_after_supervisor st = (Route.runner, st) := by
  unfold should_continue_after_supervisor
  rw [if_pos h]

/-- Witness for the approval-routing claim at the concrete approved
state with count 2. -/
theorem approval_keeps_state_unchanged_witness :
    should_continue_after_supervisor stApprovedAfterTwo
      = (Route.runner, stApprovedAfterTwo) :=
  approval_keeps_state_unchanged stApprovedAfterTwo rfl

/-- A rejecting Reviewer whose `k`-th verdict carries feedback `F(k+1)`. -/
def alwaysReject : Nat → SupervisorReview :=
  fun k => { approved := false, feedback := "F" ++ toString (k + 1) }

/-- The review-loop start state: a nonempty plan, no rejections yet. -/
def reviewStart : AgentState :=
  { original_query := "q", plan := ["search_mofs"], current_step := 0,
    tool_outputs := [], review_feedback := "N/A",
    is_plan_approved := false, rejection_count := 0 }

/-- The review loop run against the always-rejecting Reviewer. -/
def rejectedLoopRun : LoopResult := reviewLoop alwaysReject 10 0 0 reviewStart

/-- C2 counterexample: under rejections with feedback F1, F2, F3 the
safeguard forces approval already on the 3rd review cycle — after only
2 Planner re-invocations, not 3, and with no 4th cycle — because the
router increments the count before comparing it to the ceiling.  The
final feedback annotation is `Auto-approved after 3 rejections.
Previous feedback: F3` (capital `A`). -/
theorem forced_approval_on_third_cycle :
    rejectedLoopRun.route = some Route.runner ∧
    rejectedLoopRun.replans = 2 ∧
    rejectedLoopRun.replans ≠ 3 ∧
    rejectedLoopRun.cycles = 3 ∧
    rejectedLoopRun.cycles ≠ 4 ∧
    rejectedLoopRun.final.review_feedback
      = "Auto-approved after 3 rejections. Previous feedback: F3" ∧
    rejectedLoopRun.final.is_plan_approved = true := by
  exact ⟨by rfl, by rfl, by decide, by rfl, by decide, by rfl, by rfl⟩

/-- C2 amended: for every rejection sequence with feedback F1, F2, F3
the loop forces approval on the 3rd review cycle, after exactly 2
Planner re-invocations; the final feedback is exactly
`Auto-approved after 3 rejections. Previous feedback: ` followed by F3,
and the plan is approved — so the planning/review loop cannot repeat
indefinitely. -/
theorem forced_approval_after_three_rejections (F1 F2 F3 : String)
    (q s0 : String) (pl : List String) (outs : List (String × Value))
    (fb : String) (ap : Bool) (cs : Nat) :
    (reviewLoop
        (fun k => { approved := false, feedback := [F1, F2, F3].getD k "N/A" })
        10 0 0
        { original_query := q, plan := s0 :: pl, current_step := cs,
          tool_outputs := outs, review_feedback := fb,
          is_plan_approved := ap, rejection_count := 0 }).route
      = some Route.runner ∧
    (reviewLoop
        (fun k => { approved := false, feedback := [F1, F2, F3].getD k "N/A" })
        10 0 0
        { original_query := q, plan := s0 :: pl, current_step := cs,
          tool_outputs := outs, review_feedback := fb,
          is_plan_approved := ap, rejection_count := 0 }).replans = 2 ∧
    (reviewLoop
        (fun k => { approved := false, feedback := [F1, F2, F3].getD k "N/A" })
        10 0 0
        { original_query := q, plan := s0 :: pl, current_step := cs,
          tool_outputs := outs, review_feedback := fb,
          is_plan_approved := ap, rejection_count := 0 }).cycles = 3 ∧
    (reviewLoop
        (fun k => { approved := false, feedback := [F1, F2, F3].getD k "N/A" })
        10 0 0
        { original_query := q, plan := s0 :: pl, current_step := cs,
          tool_outputs := outs, review_feedback := fb,
          is_plan_approved := ap, rejection_count := 0 }).final.review_feedback
      = "Auto-approved after 3 rejections. Previous feedback: " ++ F3 ∧
    (reviewLoop
        (fun k => { approved := false, feedback := [F1, F2, F3].getD k "N/A" })
        10 0 0
        { original_query := q, plan := s0 :: pl, current_step := cs,
          tool_outputs := outs, review_feedback := fb,
          is_plan_approved := ap, rejection_count := 0 }).final.is_plan_approved
      = true := by
  have hlit : ("Auto-approved after " ++ toString (3 : Nat)
        ++ " rejections. Previous feedback: ")
      = "Auto-approved after 3 rejections. Previous feedback: " := by
    decide
  refine ⟨by rfl, by rfl, by rfl, ?_, by rfl⟩
  show ("Auto-approved after " ++ toString (3 : Nat)
      ++ " rejections. Previous feedback: ") ++ F3
    = "Auto-approved after 3 rejections. Previous feedback: " ++ F3
  rw [hlit]

/-- C8: when the structured-output call fails (forcing the text
fallback) and the response text is malformed — no brace-delimited
candidate, or one that `json.loads`/model validation rejects — the
review defaults to `approved = true` with a feedback string noting the
fallback.  The embedded `supervisor_node` is a total function, so no
exception escapes the review step for any response text. -/
theorem review_parse_failure_defaults_to_approved
    (extract : String → Option SupervisorReview) (content : String)
    (st : AgentState) (hplan : st.plan ≠ [])
    (hfail : (braceExtract content).bind extract = none) :
    (supervisor_node none extract content st).is_plan_approved = true ∧
    ((supervisor_node none extract content st).review_feedback
        = "Could not parse review, defaulting to approved."
      ∨ (supervisor_node none extract content st).review_feedback
        = "No structured review found, defaulting to approved.") := by
  have hempty : st.plan.isEmpty = false := by
    cases hp : st.plan with
    | nil => exact absurd hp hplan
    | cons a l => rfl
  unfold supervisor_node
  rw [if_neg (by simp [hempty])]
  unfold parse_review
  cases hbe : braceExtract content with
  | none => exact ⟨rfl, Or.inr rfl⟩
  | some j =>
    rw [hbe] at hfail
    have hex : extract j = none := hfail
    simp only [hex]
    exact ⟨trivial, Or.inl trivial⟩

/-- A `json.loads`-plus-validation oracle that rejects everything. -/
def noReview : String → Option SupervisorReview := fun _ => none

/-- Witness for the Reviewer-fallback claim: a response with no JSON
object at all still yields an approving verdict with the fallback
feedback. -/
theorem review_parse_failure_witness :
    (supervisor_node none noReview "sounds good to me" reviewStart).is_plan_approved
      = true ∧
    ((supervisor_node none noReview "sounds good to me"
          reviewStart).review_feedback
        = "Could not parse review, defaulting to approved."
      ∨ (supervisor_node none noReview "sounds good to me"
          reviewStart).review_feedback
        = "No structured review found, defaulting to approved.") :=
  review_parse_failure_defaults_to_approved noReview "sounds good to me"
    reviewStart (by decide) (by rfl)

theorem startsList_append_left (p q cs : List Char)
    (h : startsList (p ++ q) cs = true) : startsList p cs = true := by
  induction p generalizing cs with
  | nil => rfl
  | cons a ps ih =>
    cases cs with
    | nil => simp [startsList] at h
    | cons c rest =>
      simp only [List.cons_append, startsList, Bool.and_eq_true,
        decide_eq_true_eq] at h ⊢
      exact ⟨h.1, ih rest h.2⟩

/-- C9: the executor's text normalization refines the spec's layered
strategy — (1) fenced-wrapper strip-and-parse, (2) raw parse, (3) raw
passthrough, each tried only when the earlier ones fail — for every
`json.loads` oracle that fails on text starting with a fence marker
(as real JSON parsing does: no JSON document starts with a grave
accent). -/
theorem process_text_refines_layered (parse : String → Option Value)
    (s : String)
    (hpj : ∀ u : String,
      startsList [btick, btick, btick] u.data = true → parse u = none) :
    processText parse s = specLayeredNormalize parse s := by
  have hpre : ∀ u : String, fencePresent u = true →
      startsList [btick, btick, btick] u.data = true := by
    intro u hu
    exact startsList_append_left [btick, btick, btick] ['j', 's', 'o', 'n']
      u.data hu
  simp only [processText, specLayeredNormalize]
  by_cases hf : fencePresent (pyStrip s) = true
  · rw [if_pos hf, if_pos hf]
    cases hsf : searchFence (pyStrip s).data with
    | none =>
      rw [hpj (pyStrip s) (hpre (pyStrip s) hf)]
      rfl
    | some g =>
      cases hpg : parse g with
      | some v => rw [Option.some_bind, hpg]
      | none =>
        rw [Option.some_bind, hpg, hpj (pyStrip s) (hpre (pyStrip s) hf)]
  · rw [if_neg hf, if_neg hf]

/-- The string holding exactly one left and one right curly bracket. -/
def braceOnly : String := String.mk [lbrace, rbrace]

/-- A `json.loads` oracle accepting exactly the empty JSON object. -/
def parseBraceOnly : String → Option Value :=
  fun t => if t = braceOnly then some (Value.vdict []) else none

/-- A fenced sample payload: a ```json fence around an empty object. -/
def fencedSample : String :=
  String.mk ([btick, btick, btick, 'j', 's', 'o', 'n', ' ', lbrace,
    rbrace, ' ', btick, btick, btick])

/-- Witness for the layered-normalization claim at a concrete fenced
payload and a concrete JSON oracle that fails on fence-marked text. -/
theorem process_text_refines_layered_witness :
    processText parseBraceOnly fencedSample
      = specLayeredNormalize parseBraceOnly fencedSample :=
  process_text_refines_layered parseBraceOnly fencedSample
    (fun u h => by
      unfold parseBraceOnly
      by_cases h2 : u = braceOnly
      · rw [h2] at h
        exact absurd h (by decide)
      · rw [if_neg h2])
